import Mathlib

/-!
Shallow embedding of the route-aware place-filtering core of the travel-planner
backend (files `src/server.js`, `src/unnamed/part_000`, `src/unnamed/part_001`,
`src/contact/server.js`).

Modelling conventions:
* JS numbers are modelled as real numbers (`ℝ`); a JS value that may be
  `undefined`/`NaN` where a coordinate is expected is modelled as `Option`.
  A haversine distance computed from a `NaN` coordinate is `NaN`, and every
  comparison with `NaN` is false, so a coordinate-less place is never
  admissible; the model expresses that by returning `False` directly.
* `Math.atan2` is modelled by `atan2` below (the mathematical two-argument
  arctangent, matching `Math.atan2` on all non-NaN inputs).
* Asynchronous provider calls are modelled by an explicit outcome value
  (network failure / HTTP status / result list) passed to the function.
* A JS exception escaping a function is modelled as `Except.error ()`;
  a normal return of `v` as `Except.ok v`.
-/

namespace Vihar

open Classical

/-- JS `Math.atan2 y x`: the angle of the point `(x, y)`, in `(-π, π]`. -/
noncomputable def atan2 (y x : ℝ) : ℝ :=
  if 0 < x then Real.arctan (y / x)
  else if x < 0 then
    if 0 ≤ y then Real.arctan (y / x) + Real.pi else Real.arctan (y / x) - Real.pi
  else if 0 < y then Real.pi / 2
  else if y < 0 then -(Real.pi / 2)
  else 0

/-- `getDistanceKm(lat1, lon1, lat2, lon2)` from `src/server.js` lines 141-151
(the formula is identical in `src/unnamed/part_000` lines 140-150,
`src/unnamed/part_001` lines 169-181 and `src/contact/server.js` lines
153-165): haversine great-circle distance on a sphere of radius 6371 km. -/
noncomputable def getDistanceKm (lat1 lon1 lat2 lon2 : ℝ) : ℝ :=
  let R : ℝ := 6371
  let dLat := (lat2 - lat1) * Real.pi / 180
  let dLon := (lon2 - lon1) * Real.pi / 180
  let a := Real.sin (dLat / 2) ^ 2 +
    Real.cos (lat1 * Real.pi / 180) * Real.cos (lat2 * Real.pi / 180) *
      Real.sin (dLon / 2) ^ 2
  R * 2 * atan2 (Real.sqrt a) (Real.sqrt (1 - a))

theorem sin_half_sq_comm (u v : ℝ) :
    Real.sin ((u - v) * Real.pi / 180 / 2) ^ 2 =
      Real.sin ((v - u) * Real.pi / 180 / 2) ^ 2 := by
  have h : (u - v) * Real.pi / 180 / 2 = -((v - u) * Real.pi / 180 / 2) := by ring
  rw [h, Real.sin_neg, neg_sq]

theorem atan2_nonneg {y : ℝ} (x : ℝ) (hy : 0 ≤ y) : 0 ≤ atan2 y x := by
  unfold atan2
  split_ifs with h1 h2 h3 h4
  · have harct := Real.arctan_strictMono.monotone (div_nonneg hy h1.le)
    rwa [Real.arctan_zero] at harct
  · have := Real.neg_pi_div_two_lt_arctan (y / x)
    have hpi := Real.pi_pos
    linarith
  · positivity
  · exact absurd hy (not_le.mpr h4)
  · exact le_refl 0

theorem getDistanceKm_self (lat lon : ℝ) : getDistanceKm lat lon lat lon = 0 := by
  unfold getDistanceKm atan2
  simp [Real.sqrt_one]

theorem getDistanceKm_symm (lat1 lon1 lat2 lon2 : ℝ) :
    getDistanceKm lat1 lon1 lat2 lon2 = getDistanceKm lat2 lon2 lat1 lon1 := by
  simp only [getDistanceKm]
  rw [sin_half_sq_comm lat2 lat1, sin_half_sq_comm lon2 lon1,
    mul_comm (Real.cos (lat1 * Real.pi / 180)) (Real.cos (lat2 * Real.pi / 180))]

theorem getDistanceKm_nonneg (lat1 lon1 lat2 lon2 : ℝ) :
    0 ≤ getDistanceKm lat1 lon1 lat2 lon2 := by
  unfold getDistanceKm
  have h := atan2_nonneg
    (Real.sqrt (1 - (Real.sin ((lat2 - lat1) * Real.pi / 180 / 2) ^ 2 +
      Real.cos (lat1 * Real.pi / 180) * Real.cos (lat2 * Real.pi / 180) *
        Real.sin ((lon2 - lon1) * Real.pi / 180 / 2) ^ 2)))
    (Real.sqrt_nonneg (Real.sin ((lat2 - lat1) * Real.pi / 180 / 2) ^ 2 +
      Real.cos (lat1 * Real.pi / 180) * Real.cos (lat2 * Real.pi / 180) *
        Real.sin ((lon2 - lon1) * Real.pi / 180 / 2) ^ 2))
  positivity

/-- C8: for all coordinates, `getDistanceKm` is symmetric, vanishes on equal
endpoints, and is non-negative; in this real-valued model of JS numbers it is a
total pure function, so every pair of valid coordinates produces a (finite)
real result. -/
theorem C8_distance_symm_self_nonneg (lat1 lon1 lat2 lon2 : ℝ) :
    getDistanceKm lat1 lon1 lat2 lon2 = getDistanceKm lat2 lon2 lat1 lon1 ∧
    getDistanceKm lat1 lon1 lat1 lon1 = 0 ∧
    0 ≤ getDistanceKm lat1 lon1 lat2 lon2 :=
  ⟨getDistanceKm_symm lat1 lon1 lat2 lon2, getDistanceKm_self lat1 lon1,
    getDistanceKm_nonneg lat1 lon1 lat2 lon2⟩

/-- A latitude/longitude pair, the parsed form of one geocoding result. -/
structure Coord where
  lat : ℝ
  lon : ℝ

/-- Outcome of one outbound call to the Nominatim geocoding provider:
the fetch promise rejects (`networkFail`), the response has a non-success
HTTP status (`httpError`, carrying the body parsed as a JSON array when it is
one), or a success status with a JSON array body (`success`). -/
inductive GeoOutcome where
  | networkFail : GeoOutcome
  | httpError : Option (List Coord) → GeoOutcome
  | success : List Coord → GeoOutcome

/-- `geocodePlace` from `src/server.js` lines 154-189: the whole body is inside
`try`/`catch` and the `catch` returns `null`, so a network failure, a non-ok
status (`throw` on `!res.ok`, before the body is read) and an empty result
array (`throw`) all return `null`; a non-empty result array returns the first
entry's coordinates. -/
def geocodePlace_srv : GeoOutcome → Except Unit (Option Coord)
  | .networkFail => .ok none
  | .httpError _ => .ok none
  | .success [] => .ok none
  | .success (c :: _) => .ok (some c)

/-- The geocode result shape of `src/unnamed/part_000` (`{name, lat, lng}`). -/
structure GeoPlace where
  name : String
  lat : ℝ
  lng : ℝ

/-- `geocodePlace` from `src/unnamed/part_000` lines 152-167: there is no
`try`/`catch`, so a rejected fetch (and a non-JSON body, where `res.json()`
throws) propagates to the caller (`Except.error`); the function checks only
`!data.length`, so an empty array returns `null` and a non-empty array returns
the first entry, regardless of the HTTP status. -/
def geocodePlace_p0 (place : String) : GeoOutcome → Except Unit (Option GeoPlace)
  | .networkFail => .error ()
  | .httpError none => .error ()
  | .httpError (some []) => .ok none
  | .httpError (some (c :: _)) => .ok (some ⟨place, c.lat, c.lon⟩)
  | .success [] => .ok none
  | .success (c :: _) => .ok (some ⟨place, c.lat, c.lon⟩)

/-- The provider outcomes the spec calls failures: network failure, non-success
HTTP status, empty result list. -/
def GeoOutcome.isFailure : GeoOutcome → Prop
  | .networkFail => True
  | .httpError _ => True
  | .success rs => rs = []

/-- C3 counterexample: the claim says the Geocoder never raises, but
`geocodePlace` of `src/unnamed/part_000` (one of the two cited
implementations) propagates a network failure as an exception instead of
returning `null`. -/
theorem C3_counterexample_p0_networkFail_raises :
    geocodePlace_p0 "Tirupati" GeoOutcome.networkFail = Except.error () := rfl

/-- C3 amended: `geocodePlace` of `src/server.js` returns without raising on
every provider outcome and returns `null` (NotFound) on network failure,
non-success status and empty result list; `geocodePlace` of
`src/unnamed/part_000` returns `null` on an empty result list but propagates a
network failure as an exception. -/
theorem C3_amended_geocode_notFound (o : GeoOutcome) (place : String) :
    (∃ v, geocodePlace_srv o = Except.ok v) ∧
    (o.isFailure → geocodePlace_srv o = Except.ok none) ∧
    geocodePlace_p0 place (GeoOutcome.success []) = Except.ok none ∧
    geocodePlace_p0 place GeoOutcome.networkFail = Except.error () := by
  refine ⟨?_, ?_, rfl, rfl⟩
  · cases o with
    | networkFail => exact ⟨none, rfl⟩
    | httpError b => exact ⟨none, rfl⟩
    | success rs => cases rs with
      | nil => exact ⟨none, rfl⟩
      | cons c cs => exact ⟨some c, rfl⟩
  · intro hf
    cases o with
    | networkFail => rfl
    | httpError b => rfl
    | success rs =>
      cases rs with
      | nil => rfl
      | cons c cs => exact absurd hf (by simp [GeoOutcome.isFailure])

theorem C3_amended_geocode_notFound_witness :
    GeoOutcome.isFailure GeoOutcome.networkFail ∧
    geocodePlace_srv GeoOutcome.networkFail = Except.ok none :=
  ⟨trivial, (C3_amended_geocode_notFound GeoOutcome.networkFail "Tirupati").2.1 trivial⟩

/-- The geocode result shape of `src/contact/server.js` (Geoapify:
`{lat, lon, state, city}`; `state`/`city` may be absent). -/
structure GeoLoc where
  lat : ℝ
  lon : ℝ
  state : Option String
  city : Option String

/-- Outcome of one outbound call to the Geoapify provider in
`src/contact/server.js`: rejected fetch, non-ok status (`if (!res.ok) return
null`), a JSON body without a `results` array, or a `results` array. -/
inductive GeoapifyOutcome where
  | networkFail : GeoapifyOutcome
  | httpNotOk : GeoapifyOutcome
  | missingResults : GeoapifyOutcome
  | results : List GeoLoc → GeoapifyOutcome

/-- `geocode` from `src/contact/server.js` lines 170-197 together with the
process-wide `geoCache` object (line 168), modelled as explicit state passing:
the cache is a map from place string to cached location, returned updated.
A cache hit returns the cached value; otherwise every failure path (`catch`,
`!res.ok`, missing or empty `results`) returns `null` without touching the
cache, and only a non-empty `results` array writes `geoCache[place]`. -/
def geocode_contact (cache : String → Option GeoLoc) (place : String)
    (o : GeoapifyOutcome) : Option GeoLoc × (String → Option GeoLoc) :=
  match cache place with
  | some l => (some l, cache)
  | none =>
    match o with
    | .networkFail => (none, cache)
    | .httpNotOk => (none, cache)
    | .missingResults => (none, cache)
    | .results [] => (none, cache)
    | .results (r :: _) => (some r, fun k => if k = place then some r else cache k)

/-- C4: a failed lookup (NotFound result) leaves the geocode cache exactly as
it was — no entry added or changed — and the cache is mutated only when the
lookup returns a location. -/
theorem C4_failed_lookup_leaves_cache (cache : String → Option GeoLoc)
    (place : String) (o : GeoapifyOutcome) :
    ((geocode_contact cache place o).1 = none →
      (geocode_contact cache place o).2 = cache) ∧
    ((geocode_contact cache place o).2 ≠ cache →
      ∃ l, (geocode_contact cache place o).1 = some l) := by
  unfold geocode_contact
  cases hc : cache place with
  | some l =>
    exact ⟨fun h => rfl, fun _ => ⟨l, rfl⟩⟩
  | none =>
    cases o with
    | networkFail => exact ⟨fun _ => rfl, fun h => absurd rfl h⟩
    | httpNotOk => exact ⟨fun _ => rfl, fun h => absurd rfl h⟩
    | missingResults => exact ⟨fun _ => rfl, fun h => absurd rfl h⟩
    | results rs =>
      cases rs with
      | nil => exact ⟨fun _ => rfl, fun h => absurd rfl h⟩
      | cons r tl => exact ⟨fun h => by simp at h, fun _ => ⟨r, rfl⟩⟩

theorem C4_failed_lookup_leaves_cache_witness :
    (geocode_contact (fun _ => none) "Delhi" GeoapifyOutcome.networkFail).1 = none ∧
    (geocode_contact (fun _ => none) "Delhi" GeoapifyOutcome.networkFail).2 =
      (fun _ => none) :=
  ⟨rfl, (C4_failed_lookup_leaves_cache (fun _ => none) "Delhi"
    GeoapifyOutcome.networkFail).1 rfl⟩

/-- A candidate place as parsed from the text-generation collaborator's JSON:
`{name, reason, lat, lon}`; `coords` is `none` when `lat`/`lon` are absent or
not (non-NaN) numbers. -/
structure PlaceIn where
  name : String
  reason : String
  coords : Option Coord

/-- Admissibility test of the radius filter, from `src/server.js` lines
258-276 (threshold 100) and `src/unnamed/part_001` lines 238-243 (threshold
50): keep a place iff its distance to the start or to the destination is
within the threshold. `src/server.js` first rejects non-numeric/NaN
coordinates explicitly; in `src/unnamed/part_001` a missing coordinate makes
`getDistanceKm` return `NaN` and both comparisons false. Either way a
coordinate-less place is never admissible, modelled by the `none => False`
case. -/
def placeAdmissible (thr : ℝ) (s e : Coord) (p : PlaceIn) : Prop :=
  match p.coords with
  | none => False
  | some c =>
    getDistanceKm s.lat s.lon c.lat c.lon ≤ thr ∨
    getDistanceKm e.lat e.lon c.lat c.lon ≤ thr

/-- `parsed.places.filter(...)` of the radius revisions: keeps the admissible
places in their original order, every occurrence included. -/
noncomputable def filterPlaces (thr : ℝ) (s e : Coord) : List PlaceIn → List PlaceIn
  | [] => []
  | p :: rest =>
    if placeAdmissible thr s e p then p :: filterPlaces thr s e rest
    else filterPlaces thr s e rest

theorem filterPlaces_nil (thr : ℝ) (s e : Coord) : filterPlaces thr s e [] = [] := by
  simp [filterPlaces]

theorem filterPlaces_cons_pos {thr : ℝ} {s e : Coord} {p : PlaceIn}
    (l : List PlaceIn) (h : placeAdmissible thr s e p) :
    filterPlaces thr s e (p :: l) = p :: filterPlaces thr s e l := by
  rw [filterPlaces, if_pos h]

theorem filterPlaces_cons_neg {thr : ℝ} {s e : Coord} {p : PlaceIn}
    (l : List PlaceIn) (h : ¬ placeAdmissible thr s e p) :
    filterPlaces thr s e (p :: l) = filterPlaces thr s e l := by
  rw [filterPlaces, if_neg h]

theorem placeAdmissible_none (thr : ℝ) (s e : Coord) (nm rs : String) :
    ¬ placeAdmissible thr s e ⟨nm, rs, none⟩ := fun h => h

/-- Convenience coordinate used by concrete instantiations below. -/
def origin : Coord := ⟨0, 0⟩

/-- A concrete candidate located exactly at `origin`. -/
def pAlpha : PlaceIn := ⟨"Alpha", "visit", some origin⟩

theorem pAlpha_admissible : placeAdmissible 100 origin origin pAlpha := by
  show getDistanceKm origin.lat origin.lon origin.lat origin.lon ≤ 100 ∨ _
  left
  rw [getDistanceKm_self]
  norm_num

/-- C5: with a resolved coordinate, a candidate is admissible iff its haversine
distance to the start or to the end is within the threshold; and for every
positive threshold a candidate located exactly at the start coordinate is
admissible (its distance to the start is 0). -/
theorem C5_radius_policy_iff (thr : ℝ) (s e c : Coord) (nm rs : String) :
    (placeAdmissible thr s e ⟨nm, rs, some c⟩ ↔
      getDistanceKm s.lat s.lon c.lat c.lon ≤ thr ∨
      getDistanceKm e.lat e.lon c.lat c.lon ≤ thr) ∧
    (0 < thr → placeAdmissible thr s e ⟨nm, rs, some s⟩) := by
  constructor
  · exact Iff.rfl
  · intro hthr
    show getDistanceKm s.lat s.lon s.lat s.lon ≤ thr ∨ _
    left
    rw [getDistanceKm_self]
    exact hthr.le

theorem C5_radius_policy_iff_witness :
    (0 : ℝ) < 50 ∧ placeAdmissible 50 origin origin ⟨"Alpha", "visit", some origin⟩ :=
  ⟨by norm_num,
    (C5_radius_policy_iff 50 origin origin origin "Alpha" "visit").2 (by norm_num)⟩

/-- C1 counterexample: the Route Filter of `src/server.js` performs no
deduplication — two admissible candidates with the same (hence identically
normalized) name both survive the filter, so the output contains two entries
with equal normalized names. -/
theorem C1_counterexample_duplicate_names_survive :
    filterPlaces 100 origin origin [pAlpha, pAlpha] = [pAlpha, pAlpha] ∧
    (filterPlaces 100 origin origin [pAlpha, pAlpha]).map PlaceIn.name =
      ["Alpha", "Alpha"] := by
  have h : filterPlaces 100 origin origin [pAlpha, pAlpha] = [pAlpha, pAlpha] := by
    rw [filterPlaces_cons_pos _ pAlpha_admissible,
      filterPlaces_cons_pos _ pAlpha_admissible, filterPlaces_nil]
  exact ⟨h, by rw [h]; rfl⟩

/-- C1 amended: the Route Filter keeps the admissible candidates in first-seen
order (its output is a sublist of the input), keeps every admissible
occurrence (the output length is the number of admissible entries of the
input, and every admissible input entry appears in the output), and performs
no deduplication by name — so a normalized name may appear twice in the
output. -/
theorem C1_amended_no_dedup_filter (thr : ℝ) (s e : Coord) (l : List PlaceIn) :
    List.Sublist (filterPlaces thr s e l) l ∧
    (filterPlaces thr s e l).length =
      l.countP (fun p => decide (placeAdmissible thr s e p)) ∧
    (∀ p ∈ filterPlaces thr s e l, placeAdmissible thr s e p) ∧
    (∀ p ∈ l, placeAdmissible thr s e p → p ∈ filterPlaces thr s e l) := by
  induction l with
  | nil =>
    refine ⟨by rw [filterPlaces_nil], by rw [filterPlaces_nil]; rfl, ?_, ?_⟩
    · intro p hp
      rw [filterPlaces_nil] at hp
      exact absurd hp (List.not_mem_nil p)
    · intro p hp
      exact absurd hp (List.not_mem_nil p)
  | cons q tl ih =>
    obtain ⟨ihs, ihl, ihall, ihmem⟩ := ih
    by_cases hq : placeAdmissible thr s e q
    · rw [filterPlaces_cons_pos _ hq]
      refine ⟨ihs.cons₂ q, ?_, ?_, ?_⟩
      · rw [List.countP_cons, List.length_cons, ihl, decide_eq_true hq]
        simp
      · intro p hp
        rcases List.mem_cons.mp hp with h | h
        · exact h ▸ hq
        · exact ihall p h
      · intro p hp hpa
        rcases List.mem_cons.mp hp with h | h
        · exact h ▸ List.mem_cons_self q _
        · exact List.mem_cons_of_mem q (ihmem p h hpa)
    · rw [filterPlaces_cons_neg _ hq]
      refine ⟨ihs.cons q, ?_, ihall, ?_⟩
      · rw [List.countP_cons, ihl, decide_eq_false hq]
        simp
      · intro p hp hpa
        rcases List.mem_cons.mp hp with h | h
        · exact absurd (h ▸ hpa) hq
        · exact ihmem p h hpa

theorem C1_amended_no_dedup_filter_witness :
    pAlpha ∈ ([pAlpha, pAlpha] : List PlaceIn) ∧
    placeAdmissible 100 origin origin pAlpha ∧
    pAlpha ∈ filterPlaces 100 origin origin [pAlpha, pAlpha] :=
  ⟨List.mem_cons_self _ _, pAlpha_admissible,
    (C1_amended_no_dedup_filter 100 origin origin [pAlpha, pAlpha]).2.2.2 pAlpha
      (List.mem_cons_self _ _) pAlpha_admissible⟩

/-- A latitude/longitude pair as used by `src/unnamed/part_000`
(field `lng`, not `lon`). -/
structure LatLng where
  lat : ℝ
  lng : ℝ

/-- `isBetweenRoute(place, start, end, buffer = 1.5)` from
`src/unnamed/part_000` lines 170-182: membership in the rectangle spanned by
the start and end coordinates expanded by `buffer` on all sides. -/
def isBetweenRoute (place : LatLng) (s e : LatLng) (buffer : ℝ := 1.5) : Prop :=
  place.lat ≥ min s.lat e.lat - buffer ∧
  place.lat ≤ max s.lat e.lat + buffer ∧
  place.lng ≥ min s.lng e.lng - buffer ∧
  place.lng ≤ max s.lng e.lng + buffer

/-- Modelled from the spec: the rectangle spanned by the start and end
latitudes/longitudes, expanded by the buffer margin on all sides (membership
stated as interval membership of each component). -/
def specExpandedRect (s e : LatLng) (buffer : ℝ) (p : LatLng) : Prop :=
  p.lat ∈ Set.Icc (min s.lat e.lat - buffer) (max s.lat e.lat + buffer) ∧
  p.lng ∈ Set.Icc (min s.lng e.lng - buffer) (max s.lng e.lng + buffer)

/-- C6: under the bounding-box policy a candidate is admissible exactly when
its coordinate lies in the rectangle spanned by the start and end
latitudes/longitudes expanded by the buffer on all sides: a candidate outside
that rectangle is never admissible, a candidate inside it always is. -/
theorem C6_bounding_box_iff (p s e : LatLng) (buffer : ℝ) :
    isBetweenRoute p s e buffer ↔ specExpandedRect s e buffer p := by
  unfold isBetweenRoute specExpandedRect
  simp only [Set.mem_Icc, ge_iff_le]
  tauto

/-- The mapped place shape sorted by `src/unnamed/part_000`
(`{name, reason, lat, lng}`, built at lines 242-247). -/
structure RoutePlace where
  name : String
  reason : String
  lat : ℝ
  lng : ℝ

/-- The sort key of `sortAlongRoute`: distance from the start coordinate. -/
noncomputable def distFromStart (start : GeoPlace) (p : RoutePlace) : ℝ :=
  getDistanceKm start.lat start.lng p.lat p.lng

/-- `sortAlongRoute(places, start)` from `src/unnamed/part_000` lines 184-190:
`places.sort((a, b) => d(start, a) - d(start, b))`. `Array.prototype.sort` is
required (ES2019) to be stable and to order the array consistently with the
comparator, i.e. `a` precedes `b` whenever the comparator is negative and ties
keep their original order; it is embedded as a stable insertion sort by the
comparator's key. -/
noncomputable def sortAlongRoute (places : List RoutePlace) (start : GeoPlace) :
    List RoutePlace :=
  List.insertionSort
    (fun a b => distFromStart start a ≤ distFromStart start b) places

/-- C7: the Route Filter's sorted output is in non-decreasing distance from the
start, is a permutation of its input, and the sort is stable: two entries at
equal distance from the start that appear in some order in the input appear in
the same order in the output. -/
theorem C7_sort_sorted_stable (start : GeoPlace) (l : List RoutePlace) :
    List.Sorted (fun a b => distFromStart start a ≤ distFromStart start b)
      (sortAlongRoute l start) ∧
    List.Perm (sortAlongRoute l start) l ∧
    (∀ a b : RoutePlace, distFromStart start a = distFromStart start b →
      List.Sublist [a, b] l → List.Sublist [a, b] (sortAlongRoute l start)) := by
  haveI : IsTotal RoutePlace
      (fun a b => distFromStart start a ≤ distFromStart start b) :=
    ⟨fun a b => le_total _ _⟩
  haveI : IsTrans RoutePlace
      (fun a b => distFromStart start a ≤ distFromStart start b) :=
    ⟨fun _ _ _ hab hbc => le_trans hab hbc⟩
  refine ⟨List.sorted_insertionSort _ l, List.perm_insertionSort _ l, ?_⟩
  intro a b hd hsub
  exact List.pair_sublist_insertionSort (le_of_eq hd) hsub

/-- A concrete start point for the C7 witness. -/
def startGP : GeoPlace := ⟨"S", 0, 0⟩

/-- Two concrete route places at the same coordinate (equal sort keys). -/
def aRP : RoutePlace := ⟨"A", "first", 1, 1⟩

def bRP : RoutePlace := ⟨"B", "second", 1, 1⟩

theorem C7_sort_sorted_stable_witness :
    distFromStart startGP aRP = distFromStart startGP bRP ∧
    List.Sublist [aRP, bRP] [aRP, bRP] ∧
    List.Sublist [aRP, bRP] (sortAlongRoute [aRP, bRP] startGP) :=
  ⟨rfl, List.Sublist.refl _,
    (C7_sort_sorted_stable startGP [aRP, bRP]).2.2 aRP bRP rfl (List.Sublist.refl _)⟩

/-- The parsed result of extracting the first JSON block from the
text-generation collaborator's raw output. -/
structure ParsedPlan where
  places : List PlaceIn
  plan : String

/-- The request body of `/api/generate-plan`. A missing/empty JS field is
modelled by `""` (strings) and `0` (`days`), the falsy values the handlers
test with `!field`. -/
structure TripReq where
  startLocation : String
  destination : String
  days : Nat
  interests : List String
  tripType : String

/-- An HTTP response: status code plus the `error` message, if any. -/
structure Resp where
  status : Nat
  error : Option String

/-- A trip record as pushed onto the user's `trips` array. -/
structure Trip where
  startLocation : String
  destination : String
  days : Nat
  interests : List String
  planPlaces : List PlaceIn
  planText : String
  tripType : String

/-- The external collaborators of one request: `geocode` is the result of
`geocodePlace` for a given name (these revisions' `geocodePlace` never
throws), `ai` is the parsed JSON block of the collaborator's raw output, or
`none` when no block parses (then `raw.match(...)[0]` / `JSON.parse` throws
and the `catch` answers 500). -/
structure Env where
  geocode : String → Option Coord
  ai : Option ParsedPlan

/-- The coordinate-fill loop of `src/server.js` lines 240-255: re-geocode only
when `lat`/`lon` is not a (non-NaN) number; keep the place unchanged when
geocoding fails. -/
def fillPlace_v100 (geocode : String → Option Coord) (p : PlaceIn) : PlaceIn :=
  match p.coords with
  | some _ => p
  | none =>
    match geocode p.name with
    | some c => { p with coords := some c }
    | none => p

/-- The coordinate-validation loop of `src/unnamed/part_001` lines 227-235:
`if (!place.lat || !place.lon)` is true when a coordinate is missing OR when
`lat` or `lon` is exactly `0` (falsy in JS), and then a successful re-geocode
overwrites both components; a failed re-geocode leaves the place unchanged. -/
noncomputable def fillPlace_v50 (geocode : String → Option Coord) (p : PlaceIn) : PlaceIn :=
  match p.coords with
  | none =>
    match geocode p.name with
    | some c => { p with coords := some c }
    | none => p
  | some c =>
    if c.lat = 0 ∨ c.lon = 0 then
      match geocode p.name with
      | some c2 => { p with coords := some c2 }
      | none => p
    else p

/-- The `/api/generate-plan` handler of `src/server.js` lines 192-297 after
authentication, as a function from collaborator outcomes, request and stored
trips to response and stored trips: missing fields → 400; unresolvable start
or destination → 400; unparseable collaborator output → 500 (thrown, caught);
otherwise fill coordinates, filter within 100 km of start or destination,
push the trip and answer 200 — with no empty-result check. -/
noncomputable def generatePlan_v100 (env : Env) (req : TripReq) (trips : List Trip) :
    Resp × List Trip :=
  if req.startLocation = "" ∨ req.destination = "" ∨ req.days = 0 then
    (⟨400, some "Missing fields"⟩, trips)
  else
    match env.geocode req.startLocation, env.geocode req.destination with
    | some s, some e =>
      match env.ai with
      | none => (⟨500, some "Failed to generate plan"⟩, trips)
      | some parsed =>
        let kept := filterPlaces 100 s e (parsed.places.map (fillPlace_v100 env.geocode))
        (⟨200, none⟩,
          trips ++ [⟨req.startLocation, req.destination, req.days, req.interests,
            kept, parsed.plan, req.tripType⟩])
    | _, _ => (⟨400, some "Failed to geocode start or destination"⟩, trips)

/-- The `/api/generate-plan` handler of `src/unnamed/part_001` lines 184-269
after authentication: unresolvable start or destination → 400; unparseable
collaborator output → 500 (thrown, caught); otherwise validate coordinates,
hard-filter within 50 km of start or destination, answer 400 without saving
when no place is left, else push the trip and answer 200. -/
noncomputable def generatePlan_v50 (env : Env) (req : TripReq) (trips : List Trip) :
    Resp × List Trip :=
  match env.geocode req.startLocation, env.geocode req.destination with
  | some s, some e =>
    match env.ai with
    | none => (⟨500, some "Failed to generate trip"⟩, trips)
    | some parsed =>
      let kept := filterPlaces 50 s e (parsed.places.map (fillPlace_v50 env.geocode))
      if kept.isEmpty then
        (⟨400, some "No valid places found within 50 km. Try different inputs."⟩, trips)
      else
        (⟨200, none⟩, trips ++ [⟨req.startLocation, req.destination, req.days,
          req.interests, kept, parsed.plan, req.tripType⟩])
  | _, _ => (⟨400, some "Unable to geocode locations"⟩, trips)

/-- C9: when the collaborator's raw output contains no parseable JSON block,
both radius revisions answer 500 with their generation-failure message and the
stored trips are exactly what they were before the request. -/
theorem C9_parse_failure_500_no_persist (env : Env) (req : TripReq)
    (trips : List Trip) (s e : Coord)
    (hai : env.ai = none)
    (hs : env.geocode req.startLocation = some s)
    (he : env.geocode req.destination = some e)
    (hfields : ¬(req.startLocation = "" ∨ req.destination = "" ∨ req.days = 0)) :
    generatePlan_v100 env req trips = (⟨500, some "Failed to generate plan"⟩, trips) ∧
    generatePlan_v50 env req trips = (⟨500, some "Failed to generate trip"⟩, trips) := by
  constructor
  · simp only [generatePlan_v100, if_neg hfields, hs, he, hai]
  · simp only [generatePlan_v50, hs, he, hai]

/-- An environment whose text-generation collaborator's output is unparseable. -/
def envNoJson : Env := ⟨fun _ => some origin, none⟩

/-- A well-formed concrete request. -/
def reqAB : TripReq := ⟨"A", "B", 3, [], "friends"⟩

theorem C9_parse_failure_500_no_persist_witness :
    envNoJson.ai = none ∧
    envNoJson.geocode "A" = some origin ∧
    envNoJson.geocode "B" = some origin ∧
    ¬(reqAB.startLocation = "" ∨ reqAB.destination = "" ∨ reqAB.days = 0) ∧
    generatePlan_v100 envNoJson reqAB [] =
      (⟨500, some "Failed to generate plan"⟩, []) ∧
    generatePlan_v50 envNoJson reqAB [] =
      (⟨500, some "Failed to generate trip"⟩, []) := by
  have h := C9_parse_failure_500_no_persist envNoJson reqAB [] origin origin
    rfl rfl rfl (by simp [reqAB])
  exact ⟨rfl, rfl, rfl, by simp [reqAB], h.1, h.2⟩

theorem generatePlan_v100_success (env : Env) (req : TripReq) (trips : List Trip)
    (s e : Coord) (parsed : ParsedPlan)
    (hfields : ¬(req.startLocation = "" ∨ req.destination = "" ∨ req.days = 0))
    (hs : env.geocode req.startLocation = some s)
    (he : env.geocode req.destination = some e)
    (hai : env.ai = some parsed) :
    generatePlan_v100 env req trips =
      (⟨200, none⟩, trips ++ [⟨req.startLocation, req.destination, req.days,
        req.interests,
        filterPlaces 100 s e (parsed.places.map (fillPlace_v100 env.geocode)),
        parsed.plan, req.tripType⟩]) := by
  simp only [generatePlan_v100, if_neg hfields, hs, he, hai]

/-- A candidate the collaborator suggested without coordinates, whose name no
provider result resolves. -/
def pX : PlaceIn := ⟨"X", "far away", none⟩

/-- An environment that resolves only the endpoints `"A"` and `"B"` and whose
collaborator suggests only the unresolvable candidate `pX`: every candidate is
dropped by the Route Filter. -/
def envFar : Env :=
  ⟨fun nm => if nm = "A" ∨ nm = "B" then some origin else none, some ⟨[pX], "pl"⟩⟩

theorem envFar_fill_v100 : fillPlace_v100 envFar.geocode pX = pX := rfl

theorem envFar_kept_empty : filterPlaces 100 origin origin [pX] = [] := by
  rw [show pX = (⟨"X", "far away", none⟩ : PlaceIn) from rfl,
    filterPlaces_cons_neg _ (placeAdmissible_none 100 origin origin "X" "far away"),
    filterPlaces_nil]

/-- C2 counterexample: in `src/server.js` (one of the two cited
implementations) the filter leaving zero admissible candidates does NOT
produce a 400: the handler answers 200 and persists a trip whose place list is
empty. -/
theorem C2_counterexample_v100_persists_empty :
    (generatePlan_v100 envFar reqAB []).1.status = 200 ∧
    (generatePlan_v100 envFar reqAB []).2 =
      [⟨"A", "B", 3, [], [], "pl", "friends"⟩] := by
  have h := generatePlan_v100_success envFar reqAB [] origin origin ⟨[pX], "pl"⟩
    (by simp [reqAB]) rfl rfl rfl
  rw [show (⟨[pX], "pl"⟩ : ParsedPlan).places.map (fillPlace_v100 envFar.geocode) =
      [pX] from rfl, envFar_kept_empty] at h
  rw [h]
  exact ⟨rfl, rfl⟩

/-- C2 amended: in the `src/unnamed/part_001` revision, whenever the hard
filter leaves zero admissible candidates the endpoint answers 400 with the
user-facing "No valid places found" error and no trip is persisted; the
`src/server.js` revision has no such check and persists the empty result as a
success. -/
theorem C2_amended_v50_empty_400_no_persist (env : Env) (req : TripReq)
    (trips : List Trip) (s e : Coord) (parsed : ParsedPlan)
    (hs : env.geocode req.startLocation = some s)
    (he : env.geocode req.destination = some e)
    (hai : env.ai = some parsed)
    (hkept : filterPlaces 50 s e (parsed.places.map (fillPlace_v50 env.geocode)) = []) :
    generatePlan_v50 env req trips =
      (⟨400, some "No valid places found within 50 km. Try different inputs."⟩,
        trips) := by
  simp only [generatePlan_v50, hs, he, hai, hkept, List.isEmpty_nil, if_true]

theorem envFar_fill_v50 : fillPlace_v50 envFar.geocode pX = pX := rfl

theorem C2_amended_v50_empty_400_no_persist_witness :
    envFar.geocode reqAB.startLocation = some origin ∧
    envFar.geocode reqAB.destination = some origin ∧
    envFar.ai = some ⟨[pX], "pl"⟩ ∧
    filterPlaces 50 origin origin
      ((⟨[pX], "pl"⟩ : ParsedPlan).places.map (fillPlace_v50 envFar.geocode)) = [] ∧
    generatePlan_v50 envFar reqAB [] =
      (⟨400, some "No valid places found within 50 km. Try different inputs."⟩,
        []) := by
  have hkept : filterPlaces 50 origin origin
      ((⟨[pX], "pl"⟩ : ParsedPlan).places.map (fillPlace_v50 envFar.geocode)) = [] := by
    rw [show (⟨[pX], "pl"⟩ : ParsedPlan).places.map (fillPlace_v50 envFar.geocode) =
      [(⟨"X", "far away", none⟩ : PlaceIn)] from rfl,
      filterPlaces_cons_neg _ (placeAdmissible_none 50 origin origin "X" "far away"),
      filterPlaces_nil]
  exact ⟨rfl, rfl, rfl, hkept,
    C2_amended_v50_empty_400_no_persist envFar reqAB [] origin origin ⟨[pX], "pl"⟩
      rfl rfl rfl hkept⟩

/-- C10: in the coordinate-validation loop of `src/unnamed/part_001`, a
candidate whose supplied latitude or longitude is exactly 0 is treated as
missing and re-geocoded by name; when geocoding succeeds the supplied
coordinate is overwritten with the geocoded one. -/
theorem C10_zero_coord_regeocoded (g : String → Option Coord) (p : PlaceIn)
    (c c2 : Coord) (hc : p.coords = some c) (hz : c.lat = 0 ∨ c.lon = 0)
    (hg : g p.name = some c2) :
    (fillPlace_v50 g p).coords = some c2 := by
  unfold fillPlace_v50
  rw [hc]
  simp only [if_pos hz, hg]

theorem C10_zero_coord_regeocoded_witness :
    (⟨"X", "why", some ⟨0, 5⟩⟩ : PlaceIn).coords = some ⟨0, 5⟩ ∧
    ((⟨0, 5⟩ : Coord).lat = 0 ∨ (⟨0, 5⟩ : Coord).lon = 0) ∧
    (fun _ : String => some (⟨1, 2⟩ : Coord)) "X" = some ⟨1, 2⟩ ∧
    (fillPlace_v50 (fun _ => some ⟨1, 2⟩) ⟨"X", "why", some ⟨0, 5⟩⟩).coords =
      some ⟨1, 2⟩ :=
  ⟨rfl, Or.inl rfl, rfl,
    C10_zero_coord_regeocoded (fun _ => some ⟨1, 2⟩) ⟨"X", "why", some ⟨0, 5⟩⟩
      ⟨0, 5⟩ ⟨1, 2⟩ rfl (Or.inl rfl) rfl⟩

end Vihar
